import Mathlib

/-!
Verification development for the backup daemon and manifest synchronization
engine of archivist-desktop. The data model and the control-surface handlers
are embedded from src/src/pages/BackupServer.tsx; the parts of the daemon
core that only exist behind the command interface are modelled from the
specification and marked as such in their doc comments.
-/

/-- Embedded from the DaemonStats interface (BackupServer.tsx lines 43 to 49). -/
structure DaemonStats where
  totalManifestsProcessed : Nat
  totalFilesDownloaded : Nat
  totalBytesDownloaded : Nat
  totalFilesDeleted : Nat
  lastActivityAt : Option String
  deriving DecidableEq

/-- Embedded from the ProcessedManifest interface (BackupServer.tsx lines 13 to 22). -/
structure ProcessedManifest where
  manifestCid : String
  sourcePeerId : String
  sequenceNumber : Nat
  folderId : String
  processedAt : String
  fileCount : Nat
  totalSizeBytes : Nat
  deletedCount : Nat
  deriving DecidableEq

/-- Embedded from the InProgressManifest interface (BackupServer.tsx lines 24 to 33). -/
structure InProgressManifest where
  manifestCid : String
  sourcePeerId : String
  sequenceNumber : Nat
  startedAt : String
  totalFiles : Nat
  filesDownloaded : Nat
  filesFailed : Nat
  currentStatus : String
  deriving DecidableEq

/-- Embedded from the FailedManifest interface (BackupServer.tsx lines 35 to 41). -/
structure FailedManifest where
  manifestCid : String
  sourcePeerId : String
  failedAt : String
  errorMessage : String
  retryCount : Nat
  deriving DecidableEq

/-- Embedded from the DaemonState interface (BackupServer.tsx lines 5 to 11).
The two TypeScript Record maps keyed by manifestCid are embedded as
association lists from keys to records. -/
structure DaemonState where
  processedManifests : List (String × ProcessedManifest)
  inProgressManifests : List (String × InProgressManifest)
  failedManifests : List FailedManifest
  lastPollTime : String
  stats : DaemonStats
  deriving DecidableEq

/-- Embedded from the backup_server object type inside the AppConfig interface
(BackupServer.tsx lines 52 to 58). -/
structure BackupServerConfig where
  enabled : Bool
  poll_interval_secs : Nat
  max_concurrent_downloads : Nat
  max_retries : Nat
  auto_delete_tombstones : Bool
  deriving DecidableEq

/-- Embedded from the AppConfig interface (BackupServer.tsx lines 51 to 59). -/
structure AppConfig where
  backup_server : BackupServerConfig
  deriving DecidableEq

/-- Field names and TypeScript types of the backup_server object of the
AppConfig interface, transcribed from BackupServer.tsx lines 52 to 58. -/
def backupServerConfigTsFields : List (String × String) :=
  [("enabled", "boolean"),
   ("poll_interval_secs", "number"),
   ("max_concurrent_downloads", "number"),
   ("max_retries", "number"),
   ("auto_delete_tombstones", "boolean")]

/-- Field names and TypeScript types at the root of the AppConfig interface,
transcribed from BackupServer.tsx lines 51 to 59: the single root field is the
backup_server object. -/
def appConfigTsFields : List (String × String) :=
  [("backup_server", "object")]

/-- Values a rejected Tauri invoke promise can deliver to a catch block:
a plain string, an Error object carrying a message, or anything else. -/
inductive JSError where
  | strVal (s : String)
  | errVal (message : String)
  | other
  deriving DecidableEq

/-- Embedded from the error-conversion ternary chain repeated in every handler:
typeof e === string gives e itself, an Error gives e.message, anything else
gives the fixed fallback text of that handler. -/
def errMsg (fallback : String) : JSError → String
  | JSError.strVal s => s
  | JSError.errVal m => m
  | JSError.other => fallback

/-- One call to the Tauri invoke function: the command name and its named
arguments. -/
structure Invocation where
  command : String
  args : List (String × String)
  deriving DecidableEq

/-- React component state of the BackupServer page (BackupServer.tsx
lines 62 to 66). -/
structure ComponentState where
  daemonState : Option DaemonState
  config : Option AppConfig
  loading : Bool
  error : Option String
  actionInProgress : Option String
  deriving DecidableEq

/-- The invocation performed by loadState (BackupServer.tsx line 70). -/
def getStateInv : Invocation := { command := "get_backup_daemon_state", args := [] }

/-- The invocation performed by loadConfig (BackupServer.tsx line 81). -/
def getConfigInv : Invocation := { command := "get_config", args := [] }

/-- Embedded from loadState (BackupServer.tsx lines 68 to 77): on success the
returned DaemonState snapshot is stored whole and the error banner cleared;
on failure the thrown value is converted and shown. The catch is internal, so
loadState never rejects toward its callers. -/
def loadStateApply (s : ComponentState) (r : Except JSError DaemonState) : ComponentState :=
  match r with
  | Except.ok st => { s with daemonState := some st, error := none }
  | Except.error e => { s with error := some (errMsg "Failed to load daemon state" e) }

/-- The loadState call paired with the invocation trace it produces. -/
def loadStateRun (s : ComponentState) (r : Except JSError DaemonState) :
    ComponentState × List Invocation :=
  (loadStateApply s r, [getStateInv])

/-- Embedded from loadConfig (BackupServer.tsx lines 79 to 86): on success the
config is stored; a failure is only logged, so component state is unchanged. -/
def loadConfigApply (s : ComponentState) (r : Except JSError AppConfig) : ComponentState :=
  match r with
  | Except.ok cfg => { s with config := some cfg }
  | Except.error _ => s

/-- Embedded from handleEnable (BackupServer.tsx lines 101 to 113). The first
component is the resulting React state, the second the trace of invoke calls.
cmd is the outcome of the enable_backup_daemon invocation; cfgR and stR are
the payloads the follow-up loadConfig and loadState calls observe. -/
def handleEnable (s : ComponentState) (cmd : Except JSError Unit)
    (cfgR : Except JSError AppConfig) (stR : Except JSError DaemonState) :
    ComponentState × List Invocation :=
  let s1 := { s with actionInProgress := some "enable" }
  match cmd with
  | Except.ok _ =>
      let s2 := loadConfigApply s1 cfgR
      let s3 := loadStateApply s2 stR
      ({ s3 with actionInProgress := none },
        [{ command := "enable_backup_daemon", args := [] }, getConfigInv, getStateInv])
  | Except.error e =>
      ({ s1 with error := some (errMsg "Failed to enable daemon" e), actionInProgress := none },
        [{ command := "enable_backup_daemon", args := [] }])

/-- Embedded from handleDisable (BackupServer.tsx lines 115 to 127). -/
def handleDisable (s : ComponentState) (cmd : Except JSError Unit)
    (cfgR : Except JSError AppConfig) (stR : Except JSError DaemonState) :
    ComponentState × List Invocation :=
  let s1 := { s with actionInProgress := some "disable" }
  match cmd with
  | Except.ok _ =>
      let s2 := loadConfigApply s1 cfgR
      let s3 := loadStateApply s2 stR
      ({ s3 with actionInProgress := none },
        [{ command := "disable_backup_daemon", args := [] }, getConfigInv, getStateInv])
  | Except.error e =>
      ({ s1 with error := some (errMsg "Failed to disable daemon" e), actionInProgress := none },
        [{ command := "disable_backup_daemon", args := [] }])

/-- Embedded from handlePause (BackupServer.tsx lines 129 to 140). -/
def handlePause (s : ComponentState) (cmd : Except JSError Unit)
    (stR : Except JSError DaemonState) : ComponentState × List Invocation :=
  let s1 := { s with actionInProgress := some "pause" }
  match cmd with
  | Except.ok _ =>
      ({ loadStateApply s1 stR with actionInProgress := none },
        [{ command := "pause_backup_daemon", args := [] }, getStateInv])
  | Except.error e =>
      ({ s1 with error := some (errMsg "Failed to pause daemon" e), actionInProgress := none },
        [{ command := "pause_backup_daemon", args := [] }])

/-- Embedded from handleResume (BackupServer.tsx lines 142 to 153). -/
def handleResume (s : ComponentState) (cmd : Except JSError Unit)
    (stR : Except JSError DaemonState) : ComponentState × List Invocation :=
  let s1 := { s with actionInProgress := some "resume" }
  match cmd with
  | Except.ok _ =>
      ({ loadStateApply s1 stR with actionInProgress := none },
        [{ command := "resume_backup_daemon", args := [] }, getStateInv])
  | Except.error e =>
      ({ s1 with error := some (errMsg "Failed to resume daemon" e), actionInProgress := none },
        [{ command := "resume_backup_daemon", args := [] }])

/-- Embedded from handleRetry (BackupServer.tsx lines 155 to 166): invokes
retry_failed_manifest with the manifestCid of the failed entry. -/
def handleRetry (s : ComponentState) (cid : String) (cmd : Except JSError Unit)
    (stR : Except JSError DaemonState) : ComponentState × List Invocation :=
  let s1 := { s with actionInProgress := some ("retry-" ++ cid) }
  match cmd with
  | Except.ok _ =>
      ({ loadStateApply s1 stR with actionInProgress := none },
        [{ command := "retry_failed_manifest", args := [("manifestCid", cid)] }, getStateInv])
  | Except.error e =>
      ({ s1 with error := some (errMsg "Failed to retry manifest" e), actionInProgress := none },
        [{ command := "retry_failed_manifest", args := [("manifestCid", cid)] }])

/-- Embedded from shortenCid (BackupServer.tsx lines 185 to 188): slice(0, 8)
is the first eight characters and slice(-8) the last eight. -/
def shortenCid (cid : String) : String :=
  if cid.length ≤ 16 then cid
  else String.mk (cid.data.take 8) ++ "..." ++ String.mk (cid.data.drop (cid.data.length - 8))

/-- Embedded from shortenPeerId (BackupServer.tsx lines 190 to 193). -/
def shortenPeerId (peerId : String) : String :=
  if peerId.length ≤ 20 then peerId
  else String.mk (peerId.data.take 12) ++ "..."

/-- Embedded from the progress bar of the in-progress table (BackupServer.tsx
line 348): the width percentage divides filesDownloaded by totalFiles only
behind the totalFiles > 0 guard, and is 0 otherwise. -/
def progressWidth (m : InProgressManifest) : ℚ :=
  if 0 < m.totalFiles then ((m.filesDownloaded : ℚ) / (m.totalFiles : ℚ)) * 100 else 0

/-- Embedded from the retries cell of the failed-manifests table
(BackupServer.tsx line 391): the denominator falls back to 3 without config. -/
def maxRetriesShown (cfg : Option AppConfig) : Nat :=
  match cfg with
  | some c => c.backup_server.max_retries
  | none => 3

/-- One rendered row of the failed-manifests table (BackupServer.tsx lines
384 to 402). retryActionCid is the manifestCid the retry button passes to
handleRetry. -/
structure FailedRow where
  cidCell : String
  cidTitle : String
  peerCell : String
  errorCell : String
  retriesCell : String
  failedAtCell : String
  retryActionCid : String
  deriving DecidableEq

/-- Embedded from the row body of the failed-manifests table (BackupServer.tsx
lines 385 to 402). -/
def renderFailedRow (cfg : Option AppConfig) (m : FailedManifest) : FailedRow :=
  { cidCell := shortenCid m.manifestCid
    cidTitle := m.manifestCid
    peerCell := shortenPeerId m.sourcePeerId
    errorCell := m.errorMessage
    retriesCell := toString m.retryCount ++ "/" ++ toString (maxRetriesShown cfg)
    failedAtCell := m.failedAt
    retryActionCid := m.manifestCid }

/-- Embedded from the failed-manifests table (BackupServer.tsx lines 368 to
408): one row per entry of failedManifests. -/
def renderFailedTable (cfg : Option AppConfig) (st : DaemonState) : List FailedRow :=
  st.failedManifests.map (renderFailedRow cfg)

/-- Modelled from the spec: SourcePeerConfig (section 3) — peer identifier,
network addresses, logical folder identifier, manifest-server address. The
daemon core owning this type is behind the command interface and not under
src, so it is modelled from the specification text. -/
structure SourcePeerConfig where
  peerId : String
  addresses : List String
  folderId : String
  manifestServerAddr : String
  deriving DecidableEq

/-- Modelled from the spec: ManifestPointer (section 3), the result of one
discovery query. -/
structure ManifestPointer where
  manifestCid : String
  sequenceNumber : Nat
  folderId : String
  deriving DecidableEq

/-- Modelled from the spec: FileEntry of a parsed Manifest (section 3). -/
structure FileEntry where
  relativePath : String
  cid : String
  sizeBytes : Nat
  tombstone : Bool
  deriving DecidableEq

/-- Modelled from the spec: parsed Manifest (section 3). -/
structure Manifest where
  folderId : String
  sequenceNumber : Nat
  entries : List FileEntry
  generatedAt : String
  deriving DecidableEq

/-- Modelled from the spec: the last-processed sequence of a peer is derived
from the max sequence number among that peer entries in processedManifests,
defaulting to the sentinel none when nothing was processed (section 4.3
step 2). -/
def lastProcessedSeq (st : DaemonState) (peerId : String) : Option Nat :=
  st.processedManifests.foldl
    (fun acc p =>
      if p.snd.sourcePeerId = peerId then
        match acc with
        | none => some p.snd.sequenceNumber
        | some m => some (max m p.snd.sequenceNumber)
      else acc)
    none

/-- Modelled from the spec: a discovered sequence number is newer exactly when
it is strictly greater than the last-processed sequence; with nothing
processed every sequence is newer (section 4.3 step 2). -/
def isNewer (st : DaemonState) (peerId : String) (seq : Nat) : Bool :=
  match lastProcessedSeq st peerId with
  | none => true
  | some m => decide (m < seq)

/-- Modelled from the spec: whether an InProgressManifest already exists for
this pair of sourcePeerId and sequenceNumber (section 4.3 step 3). -/
def hasInProgress (st : DaemonState) (peerId : String) (seq : Nat) : Bool :=
  st.inProgressManifests.any
    (fun p => p.snd.sourcePeerId == peerId && p.snd.sequenceNumber == seq)

/-- Modelled from the spec: whether a manifestCid sits in failedManifests;
exceeding maxRetries is terminal for that manifest until an explicit retry
command resets it (section 4.3, retry semantics). -/
def isFailed (st : DaemonState) (cid : String) : Bool :=
  st.failedManifests.any (fun f => f.manifestCid == cid)

/-- Modelled from the spec: the InProgressManifest created when a new manifest
is accepted for processing (section 3 and section 4.3 step 3); totalFiles
counts the non-tombstoned entries of the fetched manifest. -/
def newInProgress (peer : SourcePeerConfig) (ptr : ManifestPointer) (m : Manifest)
    (now : String) : InProgressManifest :=
  { manifestCid := ptr.manifestCid
    sourcePeerId := peer.peerId
    sequenceNumber := ptr.sequenceNumber
    startedAt := now
    totalFiles := (m.entries.filter (fun e => !e.tombstone)).length
    filesDownloaded := 0
    filesFailed := 0
    currentStatus := "downloading" }

/-- Modelled from the spec: one per-peer step of the poll cycle (section 4.3
steps 2 and 3). If the discovered sequence number is not newer than the
last-processed one, the peer is skipped this cycle and only lastPollTime
advances; the same holds when an InProgressManifest already exists for the
pair or the manifest is terminally failed awaiting an explicit retry.
Otherwise the fetched manifest (mfetch, when the blob fetch succeeded) is
accepted and an InProgressManifest entry keyed by manifestCid is created. -/
def pollPeer (st : DaemonState) (peer : SourcePeerConfig) (ptr : ManifestPointer)
    (mfetch : Option Manifest) (now : String) : DaemonState :=
  if isNewer st peer.peerId ptr.sequenceNumber then
    if hasInProgress st peer.peerId ptr.sequenceNumber || isFailed st ptr.manifestCid then
      { st with lastPollTime := now }
    else
      match mfetch with
      | some m =>
          { st with
            lastPollTime := now,
            inProgressManifests :=
              (ptr.manifestCid, newInProgress peer ptr m now) :: st.inProgressManifests }
      | none => { st with lastPollTime := now }
  else
    { st with lastPollTime := now }

/-- Modelled from the spec: the retry loop of the orchestrator — attempts are
numbered from the first argument, the second argument is the remaining
attempt budget; the result pairs the total number of attempts made with the
first successful fetch, if any (section 4.3, retry semantics). -/
def runRetries (fetch : Nat → Option Manifest) : Nat → Nat → Nat × Option Manifest
  | attempt, 0 => (attempt, none)
  | attempt, rem + 1 =>
    match fetch attempt with
    | some m => (attempt + 1, some m)
    | none => runRetries fetch (attempt + 1) rem

/-- Modelled from the spec: the immutable ProcessedManifest completion record
written when a manifest finishes (section 3 and section 4.3 step 6):
fileCount counts non-tombstoned entries, totalSizeBytes sums their sizes,
deletedCount counts tombstoned entries. -/
def mkProcessedRecord (cid peerId : String) (m : Manifest) (now : String) : ProcessedManifest :=
  let files := m.entries.filter (fun e => !e.tombstone)
  { manifestCid := cid
    sourcePeerId := peerId
    sequenceNumber := m.sequenceNumber
    folderId := m.folderId
    processedAt := now
    fileCount := files.length
    totalSizeBytes := files.foldl (fun acc e => acc + e.sizeBytes) 0
    deletedCount := (m.entries.filter (fun e => e.tombstone)).length }

/-- Modelled from the spec: on full completion the InProgressManifest entry is
removed, a ProcessedManifest record keyed by manifestCid is written and
DaemonStats updated (section 4.3 step 6). -/
def completeManifest (st : DaemonState) (cid peerId : String) (m : Manifest)
    (now : String) : DaemonState :=
  let record := mkProcessedRecord cid peerId m now
  { st with
    inProgressManifests := st.inProgressManifests.filter (fun p => !(p.fst == cid)),
    processedManifests := (cid, record) :: st.processedManifests,
    stats :=
      { st.stats with
        totalManifestsProcessed := st.stats.totalManifestsProcessed + 1,
        totalFilesDownloaded := st.stats.totalFilesDownloaded + record.fileCount,
        totalBytesDownloaded := st.stats.totalBytesDownloaded + record.totalSizeBytes,
        totalFilesDeleted := st.stats.totalFilesDeleted + record.deletedCount,
        lastActivityAt := some now } }

/-- Modelled from the spec: processing of an accepted manifest whose blob must
be fetched with retries (section 4.3 steps 4 to 7). When some attempt within
the maxRetries budget succeeds the manifest completes; when every attempt
fails the entry moves from in-progress to FailedManifest with retryCount
equal to the number of attempts made, and stays there until an explicit
retry command. -/
def processManifest (fetch : Nat → Option Manifest) (maxRetries : Nat) (st : DaemonState)
    (cid peerId now : String) : DaemonState :=
  match runRetries fetch 0 maxRetries with
  | (_, some m) => completeManifest st cid peerId m now
  | (n, none) =>
      { st with
        inProgressManifests := st.inProgressManifests.filter (fun p => !(p.fst == cid)),
        failedManifests :=
          st.failedManifests ++
            [{ manifestCid := cid, sourcePeerId := peerId, failedAt := now,
               errorMessage := "manifest fetch failed", retryCount := n }] }

/-- Modelled from the spec: the retryFailedManifest command removes the entry
from failedManifests so the next poll cycle can pick the manifest up again
(section 4.4). -/
def retryFailedManifest (st : DaemonState) (cid : String) : DaemonState :=
  { st with failedManifests := st.failedManifests.filter (fun f => !(f.manifestCid == cid)) }

/-- Empty aggregate statistics, used as a concrete seed value. -/
def sampleStats : DaemonStats :=
  { totalManifestsProcessed := 0, totalFilesDownloaded := 0, totalBytesDownloaded := 0,
    totalFilesDeleted := 0, lastActivityAt := none }

/-- A concrete empty daemon state. -/
def emptyState : DaemonState :=
  { processedManifests := [], inProgressManifests := [], failedManifests := [],
    lastPollTime := "t0", stats := sampleStats }

/-- The same empty daemon state built through the anonymous constructor. -/
def emptyStateB : DaemonState :=
  DaemonState.mk [] [] [] "t0" sampleStats

/-- C1: the surrounding application drives the backup daemon through exactly
the six named commands — the enable action invokes enable_backup_daemon,
disable invokes disable_backup_daemon, pause invokes pause_backup_daemon,
resume invokes resume_backup_daemon, the state query invokes
get_backup_daemon_state and stores the full DaemonState snapshot, and the
retry action invokes retry_failed_manifest passing the manifestCid of the
failed manifest. -/
theorem control_surface_commands :
    ∀ (s : ComponentState) (cmd : Except JSError Unit) (cfgR : Except JSError AppConfig)
      (stR : Except JSError DaemonState) (cid : String) (st : DaemonState),
      (handleEnable s cmd cfgR stR).snd.head? =
        some { command := "enable_backup_daemon", args := [] } ∧
      (handleDisable s cmd cfgR stR).snd.head? =
        some { command := "disable_backup_daemon", args := [] } ∧
      (handlePause s cmd stR).snd.head? =
        some { command := "pause_backup_daemon", args := [] } ∧
      (handleResume s cmd stR).snd.head? =
        some { command := "resume_backup_daemon", args := [] } ∧
      (handleRetry s cid cmd stR).snd.head? =
        some { command := "retry_failed_manifest", args := [("manifestCid", cid)] } ∧
      (loadStateRun s stR).snd = [getStateInv] ∧
      getStateInv.command = "get_backup_daemon_state" ∧
      (loadStateRun s (Except.ok st)).fst.daemonState = some st := by
  intro s cmd cfgR stR cid st
  refine ⟨?_, ?_, ?_, ?_, ?_, rfl, rfl, rfl⟩ <;> cases cmd <;> rfl

/-- C2: a successful get_backup_daemon_state query yields a DaemonState with
exactly the root fields processedManifests, inProgressManifests,
failedManifests, lastPollTime and stats: each field is stored as given, and
the five fields determine the whole snapshot, so nothing else sits at the
root. -/
theorem daemonState_root_shape :
    (∀ pm ip fm lp ds,
      (DaemonState.mk pm ip fm lp ds).processedManifests = pm ∧
      (DaemonState.mk pm ip fm lp ds).inProgressManifests = ip ∧
      (DaemonState.mk pm ip fm lp ds).failedManifests = fm ∧
      (DaemonState.mk pm ip fm lp ds).lastPollTime = lp ∧
      (DaemonState.mk pm ip fm lp ds).stats = ds) ∧
    (∀ s t : DaemonState,
      s.processedManifests = t.processedManifests →
      s.inProgressManifests = t.inProgressManifests →
      s.failedManifests = t.failedManifests →
      s.lastPollTime = t.lastPollTime →
      s.stats = t.stats →
      s = t) := by
  constructor
  · intro pm ip fm lp ds
    exact ⟨rfl, rfl, rfl, rfl, rfl⟩
  · intro s t h1 h2 h3 h4 h5
    cases s
    cases t
    simp_all

/-- Witness for C2 at a concrete snapshot. -/
theorem daemonState_root_shape_witness : emptyState = emptyStateB :=
  daemonState_root_shape.2 emptyState emptyStateB rfl rfl rfl rfl rfl

/-- C7 counterexample: the AppConfig interface the page consumes declares no
field holding the list of SourcePeerConfig — no field of the root or of the
backup_server object has such a list type or a source peer name. -/
theorem config_no_source_peer_list :
    ¬ ∃ p ∈ appConfigTsFields ++ backupServerConfigTsFields,
      p.snd = "SourcePeerConfig[]" ∨ p.fst = "source_peers" := by decide

/-- C7 amended: the configuration consumed for the backup daemon nests the
fields poll_interval_secs, max_concurrent_downloads, max_retries and
auto_delete_tombstones (alongside enabled) under backup_server, and each is
stored as given; the consumed configuration carries no list of
SourcePeerConfig. -/
theorem config_fields_amended :
    ("poll_interval_secs", "number") ∈ backupServerConfigTsFields ∧
    ("max_concurrent_downloads", "number") ∈ backupServerConfigTsFields ∧
    ("max_retries", "number") ∈ backupServerConfigTsFields ∧
    ("auto_delete_tombstones", "boolean") ∈ backupServerConfigTsFields ∧
    ("enabled", "boolean") ∈ backupServerConfigTsFields ∧
    appConfigTsFields = [("backup_server", "object")] ∧
    (∀ e p mcd mr a,
      (AppConfig.mk (BackupServerConfig.mk e p mcd mr a)).backup_server.enabled = e ∧
      (AppConfig.mk (BackupServerConfig.mk e p mcd mr a)).backup_server.poll_interval_secs = p ∧
      (AppConfig.mk
        (BackupServerConfig.mk e p mcd mr a)).backup_server.max_concurrent_downloads = mcd ∧
      (AppConfig.mk (BackupServerConfig.mk e p mcd mr a)).backup_server.max_retries = mr ∧
      (AppConfig.mk
        (BackupServerConfig.mk e p mcd mr a)).backup_server.auto_delete_tombstones = a) := by
  refine ⟨by decide, by decide, by decide, by decide, by decide, rfl, ?_⟩
  intro e p mcd mr a
  exact ⟨rfl, rfl, rfl, rfl, rfl⟩

/-- A concrete in-progress record with zero total files. -/
def sampleInProgZero : InProgressManifest :=
  { manifestCid := "c0", sourcePeerId := "p0", sequenceNumber := 1, startedAt := "t0",
    totalFiles := 0, filesDownloaded := 0, filesFailed := 0, currentStatus := "downloading" }

/-- A concrete in-progress record at two of four files. -/
def sampleInProgHalf : InProgressManifest :=
  { sampleInProgZero with totalFiles := 4, filesDownloaded := 2 }

/-- C8: the rendered progress width divides filesDownloaded by totalFiles only
behind the totalFiles > 0 guard; at totalFiles = 0 the width is 0, so the
division is never taken with a zero divisor. -/
theorem progress_division_guarded :
    ∀ m : InProgressManifest,
      (m.totalFiles = 0 → progressWidth m = 0) ∧
      (0 < m.totalFiles →
        progressWidth m = ((m.filesDownloaded : ℚ) / (m.totalFiles : ℚ)) * 100) := by
  intro m
  constructor
  · intro h
    simp [progressWidth, h]
  · intro h
    simp [progressWidth, h]

/-- Witness for C8 at concrete rows of the in-progress table. -/
theorem progress_division_guarded_witness :
    progressWidth sampleInProgZero = 0 ∧
    progressWidth sampleInProgHalf =
      ((sampleInProgHalf.filesDownloaded : ℚ) / (sampleInProgHalf.totalFiles : ℚ)) * 100 :=
  ⟨(progress_division_guarded sampleInProgZero).1 rfl,
   (progress_division_guarded sampleInProgHalf).2 (by decide)⟩

/-- C9: every control handler converts a thrown value to a display message —
the thrown string itself, the message of an Error, or the fixed fallback text
of that handler — and on success as well as on failure ends with the
in-progress action marker reset to null; each handler is a total function
into component state, so no failure propagates out of it. -/
theorem handler_error_containment :
    ∀ (s : ComponentState) (e : JSError) (cfgR : Except JSError AppConfig)
      (stR : Except JSError DaemonState) (cid fb msg str : String),
      (handleEnable s (Except.error e) cfgR stR).fst.error =
        some (errMsg "Failed to enable daemon" e) ∧
      (handleDisable s (Except.error e) cfgR stR).fst.error =
        some (errMsg "Failed to disable daemon" e) ∧
      (handlePause s (Except.error e) stR).fst.error =
        some (errMsg "Failed to pause daemon" e) ∧
      (handleResume s (Except.error e) stR).fst.error =
        some (errMsg "Failed to resume daemon" e) ∧
      (handleRetry s cid (Except.error e) stR).fst.error =
        some (errMsg "Failed to retry manifest" e) ∧
      errMsg fb (JSError.strVal str) = str ∧
      errMsg fb (JSError.errVal msg) = msg ∧
      errMsg fb JSError.other = fb ∧
      (handleEnable s (Except.error e) cfgR stR).fst.actionInProgress = none ∧
      (handleDisable s (Except.error e) cfgR stR).fst.actionInProgress = none ∧
      (handlePause s (Except.error e) stR).fst.actionInProgress = none ∧
      (handleResume s (Except.error e) stR).fst.actionInProgress = none ∧
      (handleRetry s cid (Except.error e) stR).fst.actionInProgress = none ∧
      (handleEnable s (Except.ok ()) cfgR stR).fst.actionInProgress = none ∧
      (handleDisable s (Except.ok ()) cfgR stR).fst.actionInProgress = none ∧
      (handlePause s (Except.ok ()) stR).fst.actionInProgress = none ∧
      (handleResume s (Except.ok ()) stR).fst.actionInProgress = none ∧
      (handleRetry s cid (Except.ok ()) stR).fst.actionInProgress = none := by
  intro s e cfgR stR cid fb msg str
  exact ⟨rfl, rfl, rfl, rfl, rfl, rfl, rfl, rfl, rfl, rfl, rfl, rfl, rfl, rfl, rfl, rfl,
    rfl, rfl⟩

/-- C10: shortenCid leaves a CID of length at most 16 unchanged, and otherwise
returns its first 8 characters, the literal three dots, and its last 8
characters — a string of length exactly 19. -/
theorem shortenCid_spec :
    ∀ cid : String,
      (cid.length ≤ 16 → shortenCid cid = cid) ∧
      (16 < cid.length →
        shortenCid cid =
          String.mk (cid.data.take 8) ++ "..." ++
            String.mk (cid.data.drop (cid.data.length - 8)) ∧
        (shortenCid cid).length = 19) := by
  intro cid
  constructor
  · intro h
    simp [shortenCid, h]
  · intro h
    have hif : ¬ cid.length ≤ 16 := Nat.not_le.mpr h
    constructor
    · simp [shortenCid, hif]
    · have hlen : cid.data.length = cid.length := rfl
      simp only [shortenCid, hif, if_false, String.length_append, String.length_mk]
      rw [List.length_take, List.length_drop, hlen]
      have h3 : ("..." : String).length = 3 := rfl
      rw [h3]
      omega

/-- Witness for C10 at a short and at a 20-character CID. -/
theorem shortenCid_spec_witness :
    shortenCid "abcdef" = "abcdef" ∧
    (shortenCid "aaaabbbbccccddddeeee").length = 19 :=
  ⟨(shortenCid_spec "abcdef").1 (by decide),
   ((shortenCid_spec "aaaabbbbccccddddeeee").2 (by decide)).2⟩

/-- C3: a poll whose discovered sequence number is at most the last-processed
sequence of that peer is a no-op — the resulting state equals the old state
with only lastPollTime replaced, so no InProgressManifest is created and no
other field is mutated. -/
theorem idempotent_repoll :
    ∀ (st : DaemonState) (peer : SourcePeerConfig) (ptr : ManifestPointer)
      (mfetch : Option Manifest) (now : String) (m : Nat),
      lastProcessedSeq st peer.peerId = some m →
      ptr.sequenceNumber ≤ m →
      pollPeer st peer ptr mfetch now = { st with lastPollTime := now } := by
  intro st peer ptr mfetch now m h hle
  have hnew : isNewer st peer.peerId ptr.sequenceNumber = false := by
    unfold isNewer
    rw [h]
    simp [Nat.not_lt.mpr hle]
  simp [pollPeer, hnew]

/-- A concrete processed manifest of peer p1 at sequence 5. -/
def sampleProcessed : ProcessedManifest :=
  { manifestCid := "cidA", sourcePeerId := "p1", sequenceNumber := 5, folderId := "f1",
    processedAt := "t1", fileCount := 1, totalSizeBytes := 10, deletedCount := 0 }

/-- The same record built through the anonymous constructor. -/
def sampleProcessedB : ProcessedManifest :=
  ProcessedManifest.mk "cidA" "p1" 5 "f1" "t1" 1 10 0

/-- A daemon state that has processed sequence 5 of peer p1. -/
def sampleStateP1 : DaemonState :=
  { emptyState with processedManifests := [("cidA", sampleProcessed)] }

/-- A concrete source peer configuration for p1. -/
def samplePeer : SourcePeerConfig :=
  { peerId := "p1", addresses := ["addr1"], folderId := "f1", manifestServerAddr := "ms1" }

/-- A discovery result that is not newer than the processed sequence 5. -/
def samplePointerOld : ManifestPointer :=
  { manifestCid := "cidA", sequenceNumber := 5, folderId := "f1" }

/-- Witness for C3 at a concrete re-poll of an already processed sequence. -/
theorem idempotent_repoll_witness :
    pollPeer sampleStateP1 samplePeer samplePointerOld none "t2" =
      { sampleStateP1 with lastPollTime := "t2" } :=
  idempotent_repoll sampleStateP1 samplePeer samplePointerOld none "t2" 5
    (by decide) (by decide)

/-- C4: a manifest that completes processing is recorded as a ProcessedManifest
with exactly the fields manifestCid, sourcePeerId, sequenceNumber, folderId,
processedAt, fileCount, totalSizeBytes and deletedCount — each stored as
given and jointly determining the record — and the completion step stores it
in the processedManifests map keyed by its manifestCid. -/
theorem processed_manifest_record :
    (∀ a b c d e f g h,
      (ProcessedManifest.mk a b c d e f g h).manifestCid = a ∧
      (ProcessedManifest.mk a b c d e f g h).sourcePeerId = b ∧
      (ProcessedManifest.mk a b c d e f g h).sequenceNumber = c ∧
      (ProcessedManifest.mk a b c d e f g h).folderId = d ∧
      (ProcessedManifest.mk a b c d e f g h).processedAt = e ∧
      (ProcessedManifest.mk a b c d e f g h).fileCount = f ∧
      (ProcessedManifest.mk a b c d e f g h).totalSizeBytes = g ∧
      (ProcessedManifest.mk a b c d e f g h).deletedCount = h) ∧
    (∀ p q : ProcessedManifest,
      p.manifestCid = q.manifestCid →
      p.sourcePeerId = q.sourcePeerId →
      p.sequenceNumber = q.sequenceNumber →
      p.folderId = q.folderId →
      p.processedAt = q.processedAt →
      p.fileCount = q.fileCount →
      p.totalSizeBytes = q.totalSizeBytes →
      p.deletedCount = q.deletedCount →
      p = q) ∧
    (∀ (st : DaemonState) (cid peerId : String) (m : Manifest) (now : String),
      (completeManifest st cid peerId m now).processedManifests =
        (cid, mkProcessedRecord cid peerId m now) :: st.processedManifests ∧
      (mkProcessedRecord cid peerId m now).manifestCid = cid) := by
  refine ⟨?_, ?_, ?_⟩
  · intro a b c d e f g h
    exact ⟨rfl, rfl, rfl, rfl, rfl, rfl, rfl, rfl⟩
  · intro p q h1 h2 h3 h4 h5 h6 h7 h8
    cases p
    cases q
    simp_all
  · intro st cid peerId m now
    exact ⟨rfl, rfl⟩

/-- Witness for C4 at concrete records agreeing on all eight fields. -/
theorem processed_manifest_record_witness : sampleProcessed = sampleProcessedB :=
  processed_manifest_record.2.1 sampleProcessed sampleProcessedB
    rfl rfl rfl rfl rfl rfl rfl rfl

/-- Retry-loop bookkeeping: when every attempt fails, the loop uses its whole
budget and reports the total number of attempts made. -/
theorem runRetries_all_fail (fetch : Nat → Option Manifest) (h : ∀ i, fetch i = none) :
    ∀ (k a : Nat), runRetries fetch a k = (a + k, none) := by
  intro k
  induction k with
  | zero =>
      intro a
      simp [runRetries]
  | succ n ih =>
      intro a
      have hstep := ih (a + 1)
      simp [runRetries, h a, hstep]
      omega

/-- A manifest sitting in failedManifests is skipped by the poll gate: only
lastPollTime advances. -/
theorem pollPeer_skips_failed (st : DaemonState) (cid : String)
    (hfail : isFailed st cid = true) (peer : SourcePeerConfig) (ptr : ManifestPointer)
    (mfetch : Option Manifest) (now2 : String) (hcid : ptr.manifestCid = cid) :
    pollPeer st peer ptr mfetch now2 = { st with lastPollTime := now2 } := by
  unfold pollPeer
  rw [hcid, hfail]
  simp

/-- After the explicit retry command removes a failed entry, the manifest no
longer counts as failed. -/
theorem isFailed_after_retry (st : DaemonState) (cid : String) :
    isFailed (retryFailedManifest st cid) cid = false := by
  simp only [isFailed, retryFailedManifest]
  rw [Bool.eq_false_iff]
  intro hcontra
  rw [List.any_eq_true] at hcontra
  obtain ⟨f, hf, hbeq⟩ := hcontra
  have hmem := List.of_mem_filter hf
  rw [beq_iff_eq] at hbeq
  simp [hbeq] at hmem

/-- C5: a manifest whose fetch fails on every attempt moves to FailedManifest
after exactly maxRetries attempts with retryCount equal to that attempt
count, leaves the in-progress map, and is not picked up again by the poll
gate until the explicit retry command removes the failed entry. -/
theorem retry_exhaustion :
    ∀ (fetch : Nat → Option Manifest) (maxRetries : Nat) (st : DaemonState)
      (cid peerId now : String),
      (∀ i, fetch i = none) →
      (processManifest fetch maxRetries st cid peerId now).failedManifests =
        st.failedManifests ++
          [{ manifestCid := cid, sourcePeerId := peerId, failedAt := now,
             errorMessage := "manifest fetch failed", retryCount := maxRetries }] ∧
      (∀ p ∈ (processManifest fetch maxRetries st cid peerId now).inProgressManifests,
        p.fst ≠ cid) ∧
      (∀ (peer : SourcePeerConfig) (ptr : ManifestPointer) (mfetch : Option Manifest)
        (now2 : String),
        ptr.manifestCid = cid →
        pollPeer (processManifest fetch maxRetries st cid peerId now) peer ptr mfetch now2 =
          { processManifest fetch maxRetries st cid peerId now with lastPollTime := now2 }) ∧
      isFailed
        (retryFailedManifest (processManifest fetch maxRetries st cid peerId now) cid)
        cid = false := by
  intro fetch maxRetries st cid peerId now h
  have hrun : runRetries fetch 0 maxRetries = (maxRetries, none) := by
    have hall := runRetries_all_fail fetch h maxRetries 0
    simpa using hall
  have hproc : processManifest fetch maxRetries st cid peerId now =
      { st with
        inProgressManifests := st.inProgressManifests.filter (fun p => !(p.fst == cid)),
        failedManifests :=
          st.failedManifests ++
            [{ manifestCid := cid, sourcePeerId := peerId, failedAt := now,
               errorMessage := "manifest fetch failed", retryCount := maxRetries }] } := by
    unfold processManifest
    rw [hrun]
  refine ⟨by rw [hproc], ?_, ?_, isFailed_after_retry _ _⟩
  · intro p hp
    rw [hproc] at hp
    have hfilter := List.of_mem_filter hp
    simpa using hfilter
  · intro peer ptr mfetch now2 hcid
    have hfail : isFailed (processManifest fetch maxRetries st cid peerId now) cid = true := by
      rw [hproc]
      simp [isFailed]
    exact pollPeer_skips_failed _ _ hfail peer ptr mfetch now2 hcid

/-- Witness for C5: two attempts, both failing, at a concrete empty state. -/
theorem retry_exhaustion_witness :
    (processManifest (fun _ => none) 2 emptyState "cidB" "p1" "t3").failedManifests =
      emptyState.failedManifests ++
        [{ manifestCid := "cidB", sourcePeerId := "p1", failedAt := "t3",
           errorMessage := "manifest fetch failed", retryCount := 2 }] :=
  (retry_exhaustion (fun _ => none) 2 emptyState "cidB" "p1" "t3" (fun _ => rfl)).1

/-- C6: every FailedManifest entry of the daemon state has a rendered row in
the failed-manifests table exposing its human-readable errorMessage and its
retryCount, and the retry button of that row passes exactly the manifestCid
of that entry to handleRetry. -/
theorem failed_manifest_surfaced :
    ∀ (cfg : Option AppConfig) (st : DaemonState) (f : FailedManifest),
      f ∈ st.failedManifests →
      ∃ row ∈ renderFailedTable cfg st,
        row.errorCell = f.errorMessage ∧
        row.retriesCell = toString f.retryCount ++ "/" ++ toString (maxRetriesShown cfg) ∧
        row.retryActionCid = f.manifestCid := by
  intro cfg st f hf
  exact ⟨renderFailedRow cfg f, List.mem_map_of_mem _ hf, rfl, rfl, rfl⟩

/-- A concrete failed manifest entry. -/
def sampleFailed : FailedManifest :=
  { manifestCid := "cidB", sourcePeerId := "p1", failedAt := "t3",
    errorMessage := "manifest fetch failed", retryCount := 2 }

/-- A daemon state holding one failed manifest. -/
def sampleStateF : DaemonState :=
  { emptyState with failedManifests := [sampleFailed] }

/-- Witness for C6 at a concrete failed entry without loaded config. -/
theorem failed_manifest_surfaced_witness :
    ∃ row ∈ renderFailedTable none sampleStateF,
      row.errorCell = sampleFailed.errorMessage ∧
      row.retriesCell =
        toString sampleFailed.retryCount ++ "/" ++ toString (maxRetriesShown none) ∧
      row.retryActionCid = sampleFailed.manifestCid :=
  failed_manifest_surfaced none sampleStateF sampleFailed (List.mem_singleton.mpr rfl)
